import Mathlib

/-!
Verification development for the `llm_websocket` repository (`src/main.py`).

The program is a single-file websocket relay:

* `parse_hume_message` (main.py lines 17-32) extracts
  `messages_payload["messages"][-1]["message"]["content"]`.
* `llm_proxy_endpoint` (main.py lines 34-87) accepts a websocket connection,
  reads `llm_url = os.getenv("LLM_URL")` once (line 60), then loops:
  `receive_text` (line 65), `json.loads` (line 69), `parse_hume_message`
  (line 71), one `httpx` POST of `json={"question": message}` with
  `timeout=30.0` (lines 75-76), `response.json()` (line 79), access of
  `llm_response["text"]` (lines 80-83), then sends exactly two text frames
  built with `json.dumps` (lines 82-87).

We embed the JSON values the program manipulates, Python's `json.dumps` on
that value type (default separators, `ensure_ascii=True`), the translator
function, and the per-connection loop as an event-trace function.  Library
effects that are not code of this repository are modelled by their outcomes:
`json.loads` of a received text either fails or yields a JSON value
(`Inbound`), and the `httpx` POST plus `response.json()` either raises
(network error / timeout), yields a body that is not JSON, or yields a JSON
body (`PostOutcome`).  Python exceptions are modelled as `Option`/error
values that abort the iteration; every send happens only after all fallible
steps of the iteration have succeeded, exactly as in the source.
-/

/-- A JSON value, as produced by Python's `json.loads` and consumed by
`json.dumps`: objects keep insertion order, numbers are restricted to the
integers (no float appears anywhere in this program's frames). -/
inductive Json where
  | null : Json
  | bool (b : Bool) : Json
  | num (n : Int) : Json
  | str (s : String) : Json
  | arr (xs : List Json) : Json
  | obj (fields : List (String × Json)) : Json

/-- Python `d[k]` on a dict: the value under key `k`, `none` when the key is
absent (KeyError) or the value is not a dict (TypeError). -/
def Json.getField : Json → String → Option Json
  | .obj fs, k => (fs.find? (fun f => f.1 = k)).map (fun f => f.2)
  | _, _ => none

/-- Python `xs[-1]` on a list: the last element, `none` on an empty list
(IndexError) or on a non-list value. -/
def Json.lastElem : Json → Option Json
  | .arr xs => xs.getLast?
  | _ => none

/-- One hexadecimal digit, lowercase, as in Python's `\uXXXX` escapes. -/
def hexDigit (n : Nat) : Char :=
  if n < 10 then Char.ofNat (48 + n) else Char.ofNat (87 + n)

/-- Four-digit lowercase hexadecimal rendering of `n < 0x10000`. -/
def hex4 (n : Nat) : String :=
  String.mk [hexDigit (n / 4096 % 16), hexDigit (n / 256 % 16),
             hexDigit (n / 16 % 16), hexDigit (n % 16)]

/-- Escaping of a single character inside a JSON string literal, following
Python's `json.dumps` with its default `ensure_ascii=True`: printable ASCII
other than `"` and `\` is kept, the short escapes are used for the usual
control characters, every other character becomes `\uXXXX` (with a surrogate
pair above U+FFFF). -/
def escapeJsonChar (c : Char) : String :=
  if c = Char.ofNat 34 then String.mk [Char.ofNat 92, Char.ofNat 34]
  else if c = Char.ofNat 92 then String.mk [Char.ofNat 92, Char.ofNat 92]
  else if c = Char.ofNat 10 then String.mk [Char.ofNat 92, Char.ofNat 110]
  else if c = Char.ofNat 9 then String.mk [Char.ofNat 92, Char.ofNat 116]
  else if c = Char.ofNat 13 then String.mk [Char.ofNat 92, Char.ofNat 114]
  else if c = Char.ofNat 8 then String.mk [Char.ofNat 92, Char.ofNat 98]
  else if c = Char.ofNat 12 then String.mk [Char.ofNat 92, Char.ofNat 102]
  else if c.toNat < 32 then String.mk [Char.ofNat 92, Char.ofNat 117] ++ hex4 c.toNat
  else if c.toNat < 127 then String.mk [c]
  else if c.toNat < 65536 then String.mk [Char.ofNat 92, Char.ofNat 117] ++ hex4 c.toNat
  else
    String.mk [Char.ofNat 92, Char.ofNat 117] ++ hex4 (55296 + (c.toNat - 65536) / 1024)
      ++ String.mk [Char.ofNat 92, Char.ofNat 117] ++ hex4 (56320 + (c.toNat - 65536) % 1024)

/-- The body of a JSON string literal under `json.dumps`. -/
def escapeJsonString (s : String) : String :=
  String.join (s.toList.map escapeJsonChar)

mutual

/-- Python's `json.dumps` with its default arguments: item separator
`", "`, key separator `": "`, `ensure_ascii=True`.  This is how the two
outbound frames are serialized at main.py lines 83-84. -/
def Json.dumps : Json → String
  | .null => "null"
  | .bool true => "true"
  | .bool false => "false"
  | .num n => toString n
  | .str s => String.mk [Char.ofNat 34] ++ escapeJsonString s ++ String.mk [Char.ofNat 34]
  | .arr xs => "[" ++ dumpsList xs ++ "]"
  | .obj fs => "\x7b" ++ dumpsFields fs ++ "\x7d"

/-- Comma-separated rendering of a JSON array's elements. -/
def dumpsList : List Json → String
  | [] => ""
  | [x] => Json.dumps x
  | x :: y :: xs => Json.dumps x ++ ", " ++ dumpsList (y :: xs)

/-- Comma-separated rendering of a JSON object's fields, in insertion
order, with Python's default `": "` key separator. -/
def dumpsFields : List (String × Json) → String
  | [] => ""
  | [f] => String.mk [Char.ofNat 34] ++ escapeJsonString f.1 ++ String.mk [Char.ofNat 34] ++ ": " ++ Json.dumps f.2
  | f :: g :: fs => String.mk [Char.ofNat 34] ++ escapeJsonString f.1 ++ String.mk [Char.ofNat 34] ++ ": " ++ Json.dumps f.2 ++ ", " ++ dumpsFields (g :: fs)

end

/-- `parse_hume_message` (main.py lines 17-32): returns
`messages_payload["messages"][-1]["message"]["content"]` with no validation
and no transformation of the value; any failing field access (missing key,
empty sequence, wrong shape) is a raised exception, modelled as `none`. -/
def parse_hume_message (messages_payload : Json) : Option Json := do
  let messages ← messages_payload.getField "messages"
  let lastEntry ← messages.lastElem
  let message ← lastEntry.getField "message"
  message.getField "content"

/-- Outcome of `json.loads(data)` (main.py line 69) on one received text
frame: the library either raises (`malformed`) or yields a JSON value.
`json.loads` is Python standard-library code, not code of this repository,
so it is modelled by its outcome. -/
inductive Inbound where
  | malformed : Inbound
  | parsed (payload : Json) : Inbound

/-- Outcome of the `httpx` POST (main.py lines 75-76) followed by
`response.json()` (line 79), modelled as seen by the caller: the request
raises (connection error, or the 30-second timeout elapsing), or a response
arrives whose body is not valid JSON so `response.json()` raises, or a JSON
body is obtained.  `httpx` is library code, modelled by its outcome. -/
inductive PostOutcome where
  | requestError : PostOutcome
  | invalidJsonBody : PostOutcome
  | jsonBody (body : Json) : PostOutcome

/-- The exception that aborts one iteration of the connection loop. -/
inductive IterError where
  | jsonLoadsError : IterError
  | parseMessageError : IterError
  | noUrlError : IterError
  | postError : IterError
  | responseJsonError : IterError
  | missingTextError : IterError

/-- The `timeout=30.0` argument of the `httpx.AsyncClient` (main.py
line 75): the bounded wait, in seconds, applied to every outbound POST. -/
def requestTimeout : Nat := 30

/-- Observable events of one connection, in program order: a frame is
received from the websocket (line 65), the translator succeeds on it
(line 71), the outbound POST is issued with its URL, JSON body and timeout
(lines 75-76), a text frame is sent to the client (line 87), or an
unhandled exception escapes the loop. -/
inductive Event where
  | received (i : Inbound) : Event
  | extracted (u : Json) : Event
  | posted (url : String) (body : Json) (timeoutSecs : Nat) : Event
  | sentFrame (s : String) : Event
  | crashed (e : IterError) : Event

/-- One iteration of the `while True` loop (main.py lines 63-87), given the
connection's `llm_url` value and the generation endpoint's behaviour `ep`
(a map from URL and request body to the POST outcome): the events of the
iteration in program order, and the exception terminating the loop, if any.
Mirrors the source line by line: receive, `json.loads`,
`parse_hume_message`, POST (`client.post(llm_url, ...)` raises before any
request is issued when `llm_url` is `None`), `response.json()`, the
`llm_response["text"]` access, then the two sends — which therefore happen
only when every earlier step succeeded. -/
def iterTrace (llmUrl : Option String) (ep : String → Json → PostOutcome)
    (i : Inbound) : List Event × Option IterError :=
  match i with
  | .malformed => ([.received i, .crashed .jsonLoadsError], some .jsonLoadsError)
  | .parsed payload =>
    match parse_hume_message payload with
    | none => ([.received i, .crashed .parseMessageError], some .parseMessageError)
    | some u =>
      match llmUrl with
      | none => ([.received i, .extracted u, .crashed .noUrlError], some .noUrlError)
      | some url =>
        match ep url (Json.obj [("question", u)]) with
        | .requestError =>
          ([.received i, .extracted u, .posted url (Json.obj [("question", u)]) requestTimeout,
            .crashed .postError], some .postError)
        | .invalidJsonBody =>
          ([.received i, .extracted u, .posted url (Json.obj [("question", u)]) requestTimeout,
            .crashed .responseJsonError], some .responseJsonError)
        | .jsonBody body =>
          match body.getField "text" with
          | none =>
            ([.received i, .extracted u, .posted url (Json.obj [("question", u)]) requestTimeout,
              .crashed .missingTextError], some .missingTextError)
          | some t =>
            ([.received i, .extracted u, .posted url (Json.obj [("question", u)]) requestTimeout,
              .sentFrame (Json.dumps (Json.obj [("type", Json.str "assistant_input"), ("text", t)])),
              .sentFrame (Json.dumps (Json.obj [("type", Json.str "assistant_end")]))], none)

/-- The connection loop (main.py lines 63-87) over the sequence of inbound
frames delivered on the connection: iterations run strictly one after
another, each one completing (or crashing) before the next frame is read;
an unhandled exception ends the loop and later inbound frames are never
processed. -/
def connTrace (llmUrl : Option String) (ep : String → Json → PostOutcome) :
    List Inbound → List Event
  | [] => []
  | i :: rest =>
    match iterTrace llmUrl ep i with
    | (evs, none) => evs ++ connTrace llmUrl ep rest
    | (evs, some _) => evs

/-- `llm_proxy_endpoint` (main.py lines 34-87): the connection is accepted
unconditionally, `llm_url = os.getenv("LLM_URL")` is evaluated once per
connection against the environment observed at that moment (line 60), and
the loop runs with that value.  `env` is the environment snapshot seen by
this connection's `os.getenv` call. -/
def llm_proxy_endpoint (env : String → Option String)
    (ep : String → Json → PostOutcome) (inbounds : List Inbound) : List Event :=
  connTrace (env "LLM_URL") ep inbounds

/-- The text frames sent to the client, in order, within a trace. -/
def sentFrames (evs : List Event) : List String :=
  evs.filterMap fun e =>
    match e with
    | .sentFrame s => some s
    | _ => none

/-- The outbound POST events of a trace, in order. -/
def postedEvents (evs : List Event) : List Event :=
  evs.filter fun e =>
    match e with
    | .posted _ _ _ => true
    | _ => false

/-- The URLs of the outbound POSTs of a trace, in order. -/
def postedUrls (evs : List Event) : List String :=
  evs.filterMap fun e =>
    match e with
    | .posted url _ _ => some url
    | _ => none

/-- The inbound payload of the spec's scenario A: a JSON object whose
"messages" field is a one-entry list, the entry carrying
message.content = "Hello". -/
def helloPayload : Json :=
  Json.obj [("messages",
    Json.arr [Json.obj [("message", Json.obj [("content", Json.str "Hello")])]])]

/-- Scenario A's inbound frame after a successful `json.loads`. -/
def helloInbound : Inbound := Inbound.parsed helloPayload

/-- A generation endpoint that always replies with the JSON body carrying
text = "Hi there" (the spec's scenario A, and an idempotent endpoint). -/
def okEndpoint : String → Json → PostOutcome :=
  fun _ _ => PostOutcome.jsonBody (Json.obj [("text", Json.str "Hi there")])

/-- When an iteration completes without an exception, the loop body of
`connTrace` appends that iteration's events and continues with the rest of
the inbound frames. -/
theorem connTrace_cons_ok (llmUrl : Option String) (ep : String → Json → PostOutcome)
    (i : Inbound) (rest : List Inbound) (h : (iterTrace llmUrl ep i).2 = none) :
    connTrace llmUrl ep (i :: rest) = (iterTrace llmUrl ep i).1 ++ connTrace llmUrl ep rest := by
  have hit : iterTrace llmUrl ep i = ((iterTrace llmUrl ep i).1, none) := by
    rw [← h]
  rw [connTrace, hit]

/-- A connection that sees a single inbound frame produces exactly that
frame's iteration events. -/
theorem connTrace_singleton (llmUrl : Option String) (ep : String → Json → PostOutcome)
    (i : Inbound) : connTrace llmUrl ep [i] = (iterTrace llmUrl ep i).1 := by
  rcases hit : iterTrace llmUrl ep i with ⟨evs, err⟩
  cases err with
  | none => rw [connTrace, hit]; simp [connTrace, hit]
  | some e => rw [connTrace, hit]

/-- Shape of a successful iteration: the inbound frame parsed, the
translator succeeded, a URL was configured, and the events are exactly
receive, extract, one POST of the question body with the 30-second bound,
then the two outbound frames serialized with `json.dumps`. -/
theorem iterTrace_success_shape (llmUrl : Option String) (ep : String → Json → PostOutcome)
    (i : Inbound) (h : (iterTrace llmUrl ep i).2 = none) :
    ∃ payload u url t,
      i = Inbound.parsed payload ∧
      parse_hume_message payload = some u ∧
      llmUrl = some url ∧
      (iterTrace llmUrl ep i).1 =
        [Event.received i, Event.extracted u,
         Event.posted url (Json.obj [("question", u)]) requestTimeout,
         Event.sentFrame (Json.dumps (Json.obj [("type", Json.str "assistant_input"), ("text", t)])),
         Event.sentFrame (Json.dumps (Json.obj [("type", Json.str "assistant_end")]))] := by
  cases i with
  | malformed => simp [iterTrace] at h
  | parsed payload =>
    cases hp : parse_hume_message payload with
    | none => simp [iterTrace, hp] at h
    | some u =>
      cases llmUrl with
      | none => simp [iterTrace, hp] at h
      | some url =>
        cases hep : ep url (Json.obj [("question", u)]) with
        | requestError => simp [iterTrace, hp, hep] at h
        | invalidJsonBody => simp [iterTrace, hp, hep] at h
        | jsonBody body =>
          cases ht : Json.getField body "text" with
          | none => simp [iterTrace, hp, hep, ht] at h
          | some t =>
            exact ⟨payload, u, url, t, rfl, hp, rfl, by simp [iterTrace, hp, hep, ht]⟩

/-- Every iteration's event list opens with the receipt of its inbound
frame: the loop reads a frame before doing anything else with it. -/
theorem iterTrace_head (llmUrl : Option String) (ep : String → Json → PostOutcome)
    (i : Inbound) : ∃ tl, (iterTrace llmUrl ep i).1 = Event.received i :: tl := by
  cases i with
  | malformed => exact ⟨[Event.crashed IterError.jsonLoadsError], by simp [iterTrace]⟩
  | parsed payload =>
    cases hp : parse_hume_message payload with
    | none => exact ⟨[Event.crashed IterError.parseMessageError], by simp [iterTrace, hp]⟩
    | some u =>
      cases llmUrl with
      | none =>
        exact ⟨[Event.extracted u, Event.crashed IterError.noUrlError], by simp [iterTrace, hp]⟩
      | some url =>
        cases hep : ep url (Json.obj [("question", u)]) with
        | requestError =>
          exact ⟨[Event.extracted u,
                  Event.posted url (Json.obj [("question", u)]) requestTimeout,
                  Event.crashed IterError.postError], by simp [iterTrace, hp, hep]⟩
        | invalidJsonBody =>
          exact ⟨[Event.extracted u,
                  Event.posted url (Json.obj [("question", u)]) requestTimeout,
                  Event.crashed IterError.responseJsonError], by simp [iterTrace, hp, hep]⟩
        | jsonBody body =>
          cases ht : Json.getField body "text" with
          | none =>
            exact ⟨[Event.extracted u,
                    Event.posted url (Json.obj [("question", u)]) requestTimeout,
                    Event.crashed IterError.missingTextError], by simp [iterTrace, hp, hep, ht]⟩
          | some t =>
            exact ⟨[Event.extracted u,
                    Event.posted url (Json.obj [("question", u)]) requestTimeout,
                    Event.sentFrame (Json.dumps (Json.obj [("type", Json.str "assistant_input"), ("text", t)])),
                    Event.sentFrame (Json.dumps (Json.obj [("type", Json.str "assistant_end")]))],
                   by simp [iterTrace, hp, hep, ht]⟩

/-- Any URL posted to during one iteration is the iteration's configured
`llm_url` value. -/
theorem iterTrace_posted_url (llmUrl : Option String) (ep : String → Json → PostOutcome)
    (i : Inbound) (u : String)
    (h : u ∈ postedUrls (iterTrace llmUrl ep i).1) : llmUrl = some u := by
  cases i with
  | malformed => simp [iterTrace, postedUrls] at h
  | parsed payload =>
    cases hp : parse_hume_message payload with
    | none => simp [iterTrace, hp, postedUrls] at h
    | some v =>
      cases llmUrl with
      | none => simp [iterTrace, hp, postedUrls] at h
      | some url =>
        cases hep : ep url (Json.obj [("question", v)]) with
        | requestError => simp [iterTrace, hp, hep, postedUrls] at h; rw [h]
        | invalidJsonBody => simp [iterTrace, hp, hep, postedUrls] at h; rw [h]
        | jsonBody body =>
          cases ht : Json.getField body "text" with
          | none => simp [iterTrace, hp, hep, ht, postedUrls] at h; rw [h]
          | some t => simp [iterTrace, hp, hep, ht, postedUrls] at h; rw [h]

/-- Any URL posted to during a whole connection's loop is the connection's
configured `llm_url` value. -/
theorem connTrace_posted_url (llmUrl : Option String) (ep : String → Json → PostOutcome)
    (inbounds : List Inbound) (u : String)
    (h : u ∈ postedUrls (connTrace llmUrl ep inbounds)) : llmUrl = some u := by
  induction inbounds with
  | nil => simp [connTrace, postedUrls] at h
  | cons i rest ih =>
    rcases hit : iterTrace llmUrl ep i with ⟨evs, err⟩
    cases err with
    | none =>
      rw [connTrace, hit] at h
      simp only [postedUrls, List.filterMap_append, List.mem_append] at h
      rcases h with h | h
      · exact iterTrace_posted_url llmUrl ep i u (by rw [hit]; exact h)
      · exact ih (by simpa [postedUrls] using h)
    | some e =>
      rw [connTrace, hit] at h
      exact iterTrace_posted_url llmUrl ep i u (by rw [hit]; exact h)

/-- Claim C1: for every inbound payload whose "messages" field is a
non-empty sequence and whose last entry has the nested path
message.content, `parse_hume_message` returns exactly the content of the
last entry, unchanged, regardless of the number or content of earlier
entries, with no normalization, trimming or encoding transformation. -/
theorem parse_hume_message_returns_last_content
    (payload : Json) (pre : List Json) (entry msg c : Json)
    (hm : payload.getField "messages" = some (Json.arr (pre ++ [entry])))
    (he : entry.getField "message" = some msg)
    (hc : msg.getField "content" = some c) :
    parse_hume_message payload = some c := by
  simp [parse_hume_message, hm, Json.lastElem, List.getLast?_concat, he, hc]

/-- Witness for C1: a two-entry messages sequence, the extracted value is
the last entry's content "Hello", the earlier entry ignored. -/
theorem parse_hume_message_returns_last_content_witness :
    parse_hume_message (Json.obj [("messages", Json.arr
      [Json.obj [("message", Json.obj [("content", Json.str "earlier")])],
       Json.obj [("message", Json.obj [("content", Json.str "Hello")])]])]) =
      some (Json.str "Hello") :=
  parse_hume_message_returns_last_content _
    [Json.obj [("message", Json.obj [("content", Json.str "earlier")])]] _ _ _ rfl rfl rfl

/-- Claim C2: for the scenario-A inbound frame (messages = one entry with
message.content = "Hello") and a generation endpoint replying with body
text = "Hi there", the handler sends exactly two outbound text frames on
the connection, in order: first the `json.dumps` serialization of the
object with type = "assistant_input" and text = "Hi there" (the literal
below, with Python's default ", " and ": " separators), then the
serialization of the object with the single field type = "assistant_end". -/
theorem scenarioA_outbound_frames :
    sentFrames (llm_proxy_endpoint (fun _ => some "http://llm.example") okEndpoint
      [helloInbound]) =
      ["\x7b\"type\": \"assistant_input\", \"text\": \"Hi there\"\x7d",
       "\x7b\"type\": \"assistant_end\"\x7d"] := rfl

/-- Claim C3: within one connection, inbound frames are processed strictly
in arrival order with at most one outstanding generation request: when the
first frame's iteration succeeds, the connection trace for two frames is
the first iteration's events — ending with its two sent frames — followed
by the second frame's whole round trip, which begins with the receipt of
the second frame. -/
theorem second_round_trip_after_first_frames (llmUrl : Option String)
    (ep : String → Json → PostOutcome) (i1 i2 : Inbound)
    (h : (iterTrace llmUrl ep i1).2 = none) :
    ∃ pre f1 f2 tl2,
      (iterTrace llmUrl ep i1).1 = pre ++ [Event.sentFrame f1, Event.sentFrame f2] ∧
      connTrace llmUrl ep [i1, i2] =
        (pre ++ [Event.sentFrame f1, Event.sentFrame f2]) ++ (Event.received i2 :: tl2) ∧
      Event.received i2 :: tl2 = connTrace llmUrl ep [i2] := by
  obtain ⟨payload, u, url, t, hi, hp, hu, hevs⟩ := iterTrace_success_shape llmUrl ep i1 h
  obtain ⟨tl2, htl2⟩ := iterTrace_head llmUrl ep i2
  refine ⟨[Event.received i1, Event.extracted u,
           Event.posted url (Json.obj [("question", u)]) requestTimeout],
          Json.dumps (Json.obj [("type", Json.str "assistant_input"), ("text", t)]),
          Json.dumps (Json.obj [("type", Json.str "assistant_end")]), tl2, ?_, ?_, ?_⟩
  · rw [hevs]; rfl
  · rw [connTrace_cons_ok llmUrl ep i1 [i2] h, hevs, connTrace_singleton, htl2]; rfl
  · rw [connTrace_singleton, htl2]

/-- Witness for C3: two copies of the scenario-A frame against the
scenario-A endpoint. -/
theorem second_round_trip_after_first_frames_witness :
    ∃ pre f1 f2 tl2,
      (iterTrace (some "http://llm.example") okEndpoint helloInbound).1 =
        pre ++ [Event.sentFrame f1, Event.sentFrame f2] ∧
      connTrace (some "http://llm.example") okEndpoint [helloInbound, helloInbound] =
        (pre ++ [Event.sentFrame f1, Event.sentFrame f2]) ++
          (Event.received helloInbound :: tl2) ∧
      Event.received helloInbound :: tl2 =
        connTrace (some "http://llm.example") okEndpoint [helloInbound] :=
  second_round_trip_after_first_frames (some "http://llm.example") okEndpoint
    helloInbound helloInbound rfl

/-- Claim C4: if the outbound generation request fails (network error or
the 30-second timeout elapsing, modelled by `requestError`), or the reply
body is not valid JSON, or the JSON reply lacks the "text" field, then for
that inbound frame zero outbound frames are sent to the client, exactly one
POST was attempted (no retry), and the unhandled failure terminates the
connection loop: the trace of the whole connection is just this
iteration's events, and later inbound frames are never processed. -/
theorem outbound_failure_no_frames (url : String) (ep : String → Json → PostOutcome)
    (payload u : Json) (rest : List Inbound)
    (hp : parse_hume_message payload = some u)
    (hfail : ep url (Json.obj [("question", u)]) = PostOutcome.requestError ∨
             ep url (Json.obj [("question", u)]) = PostOutcome.invalidJsonBody ∨
             ∃ body, ep url (Json.obj [("question", u)]) = PostOutcome.jsonBody body ∧
               Json.getField body "text" = none) :
    sentFrames (connTrace (some url) ep (Inbound.parsed payload :: rest)) = [] ∧
    postedUrls (connTrace (some url) ep (Inbound.parsed payload :: rest)) = [url] ∧
    connTrace (some url) ep (Inbound.parsed payload :: rest) =
      (iterTrace (some url) ep (Inbound.parsed payload)).1 := by
  rcases hfail with hep | hep | ⟨body, hep, ht⟩
  · have hit : iterTrace (some url) ep (Inbound.parsed payload) =
        ([Event.received (Inbound.parsed payload), Event.extracted u,
          Event.posted url (Json.obj [("question", u)]) requestTimeout,
          Event.crashed IterError.postError], some IterError.postError) := by
      simp [iterTrace, hp, hep]
    rw [connTrace, hit]
    simp [sentFrames, postedUrls, hit]
  · have hit : iterTrace (some url) ep (Inbound.parsed payload) =
        ([Event.received (Inbound.parsed payload), Event.extracted u,
          Event.posted url (Json.obj [("question", u)]) requestTimeout,
          Event.crashed IterError.responseJsonError], some IterError.responseJsonError) := by
      simp [iterTrace, hp, hep]
    rw [connTrace, hit]
    simp [sentFrames, postedUrls, hit]
  · have hit : iterTrace (some url) ep (Inbound.parsed payload) =
        ([Event.received (Inbound.parsed payload), Event.extracted u,
          Event.posted url (Json.obj [("question", u)]) requestTimeout,
          Event.crashed IterError.missingTextError], some IterError.missingTextError) := by
      simp [iterTrace, hp, hep, ht]
    rw [connTrace, hit]
    simp [sentFrames, postedUrls, hit]

/-- Witness for C4: the scenario-A frame against an endpoint whose request
always fails (scenario C, a timeout), with a further frame pending that is
never processed. -/
theorem outbound_failure_no_frames_witness :
    sentFrames (connTrace (some "http://llm.example") (fun _ _ => PostOutcome.requestError)
      (Inbound.parsed helloPayload :: [helloInbound])) = [] ∧
    postedUrls (connTrace (some "http://llm.example") (fun _ _ => PostOutcome.requestError)
      (Inbound.parsed helloPayload :: [helloInbound])) = ["http://llm.example"] ∧
    connTrace (some "http://llm.example") (fun _ _ => PostOutcome.requestError)
      (Inbound.parsed helloPayload :: [helloInbound]) =
      (iterTrace (some "http://llm.example") (fun _ _ => PostOutcome.requestError)
        (Inbound.parsed helloPayload)).1 :=
  outbound_failure_no_frames "http://llm.example" (fun _ _ => PostOutcome.requestError)
    helloPayload (Json.str "Hello") [helloInbound] rfl (Or.inl rfl)

/-- Claim C5: for an inbound payload whose "messages" sequence is empty,
the translator performs no validation and returns no value — the indexing
failure on the empty sequence propagates (`none`), and in the connection
loop that payload's cycle is fatal: the iteration ends in the parse
failure, with nothing sent and later frames never processed. -/
theorem empty_messages_extraction_fails
    (payload : Json) (llmUrl : Option String) (ep : String → Json → PostOutcome)
    (rest : List Inbound)
    (h : payload.getField "messages" = some (Json.arr [])) :
    parse_hume_message payload = none ∧
    connTrace llmUrl ep (Inbound.parsed payload :: rest) =
      [Event.received (Inbound.parsed payload), Event.crashed IterError.parseMessageError] := by
  have hp : parse_hume_message payload = none := by
    simp [parse_hume_message, h, Json.lastElem]
  refine ⟨hp, ?_⟩
  have hit : iterTrace llmUrl ep (Inbound.parsed payload) =
      ([Event.received (Inbound.parsed payload), Event.crashed IterError.parseMessageError],
       some IterError.parseMessageError) := by
    simp [iterTrace, hp]
  rw [connTrace, hit]

/-- Witness for C5: the payload whose "messages" field is the empty list. -/
theorem empty_messages_extraction_fails_witness :
    parse_hume_message (Json.obj [("messages", Json.arr [])]) = none ∧
    connTrace (some "http://llm.example") okEndpoint
      (Inbound.parsed (Json.obj [("messages", Json.arr [])]) :: [helloInbound]) =
      [Event.received (Inbound.parsed (Json.obj [("messages", Json.arr [])])),
       Event.crashed IterError.parseMessageError] :=
  empty_messages_extraction_fails (Json.obj [("messages", Json.arr [])])
    (some "http://llm.example") okEndpoint [helloInbound] rfl

/-- Claim C6: a malformed inbound frame — text that is not valid JSON, or a
JSON payload missing the expected fields so the translator fails —
propagates as an unhandled error that terminates the connection loop: the
trace is the receipt followed by the crash, with no frame sent to the
client (no structured error response) and no later inbound frame processed
(no per-message recovery). -/
theorem malformed_frame_terminates_loop (llmUrl : Option String)
    (ep : String → Json → PostOutcome) (payload : Json) (rest : List Inbound)
    (hp : parse_hume_message payload = none) :
    connTrace llmUrl ep (Inbound.malformed :: rest) =
      [Event.received Inbound.malformed, Event.crashed IterError.jsonLoadsError] ∧
    connTrace llmUrl ep (Inbound.parsed payload :: rest) =
      [Event.received (Inbound.parsed payload), Event.crashed IterError.parseMessageError] := by
  constructor
  · have hit : iterTrace llmUrl ep Inbound.malformed =
        ([Event.received Inbound.malformed, Event.crashed IterError.jsonLoadsError],
         some IterError.jsonLoadsError) := rfl
    rw [connTrace, hit]
  · have hit : iterTrace llmUrl ep (Inbound.parsed payload) =
        ([Event.received (Inbound.parsed payload), Event.crashed IterError.parseMessageError],
         some IterError.parseMessageError) := by
      simp [iterTrace, hp]
    rw [connTrace, hit]

/-- Witness for C6: a frame that fails `json.loads`, and the payload
`null`, which has none of the expected fields, each followed by a pending
frame that is never processed. -/
theorem malformed_frame_terminates_loop_witness :
    connTrace (some "http://llm.example") okEndpoint (Inbound.malformed :: [helloInbound]) =
      [Event.received Inbound.malformed, Event.crashed IterError.jsonLoadsError] ∧
    connTrace (some "http://llm.example") okEndpoint (Inbound.parsed Json.null :: [helloInbound]) =
      [Event.received (Inbound.parsed Json.null), Event.crashed IterError.parseMessageError] :=
  malformed_frame_terminates_loop (some "http://llm.example") okEndpoint
    Json.null [helloInbound] rfl

/-- Claim C7: for an inbound frame whose utterance the translator extracts
as `u`, the iteration issues exactly one outbound POST, to the configured
endpoint URL, whose JSON body is exactly the object with the single field
question = u, with the bounded 30-second wait — whatever the endpoint then
does (success, failure, or a reply without "text"). -/
theorem one_post_exact_question_body (url : String) (ep : String → Json → PostOutcome)
    (payload u : Json) (hp : parse_hume_message payload = some u) :
    postedEvents (iterTrace (some url) ep (Inbound.parsed payload)).1 =
      [Event.posted url (Json.obj [("question", u)]) requestTimeout] ∧
    requestTimeout = 30 := by
  refine ⟨?_, rfl⟩
  cases hep : ep url (Json.obj [("question", u)]) with
  | requestError => simp [iterTrace, hp, hep, postedEvents]
  | invalidJsonBody => simp [iterTrace, hp, hep, postedEvents]
  | jsonBody body =>
    cases ht : Json.getField body "text" with
    | none => simp [iterTrace, hp, hep, ht, postedEvents]
    | some t => simp [iterTrace, hp, hep, ht, postedEvents]

/-- Witness for C7: the scenario-A frame; the single POST carries the body
with question = "Hello" and the 30-second bound. -/
theorem one_post_exact_question_body_witness :
    postedEvents (iterTrace (some "http://llm.example") okEndpoint
      (Inbound.parsed helloPayload)).1 =
      [Event.posted "http://llm.example"
        (Json.obj [("question", Json.str "Hello")]) requestTimeout] ∧
    requestTimeout = 30 :=
  one_post_exact_question_body "http://llm.example" okEndpoint
    helloPayload (Json.str "Hello") rfl

/-- Counterexample to claim C8 as stated: the endpoint URL is not a value
resolved once at process start and shared by every connection —
`os.getenv("LLM_URL")` runs inside `llm_proxy_endpoint` (main.py line 60),
once per accepted connection, against the environment observed at that
moment (`os.environ` is mutable process state).  Two connection
activations of the very same handler whose line-60 lookups observe
different environments post to different URLs. -/
theorem url_resolved_per_connection_counterexample :
    postedUrls (llm_proxy_endpoint (fun _ => some "http://a.example") okEndpoint
      [helloInbound]) = ["http://a.example"] ∧
    postedUrls (llm_proxy_endpoint (fun _ => some "http://b.example") okEndpoint
      [helloInbound]) = ["http://b.example"] ∧
    ("http://a.example" : String) ≠ "http://b.example" :=
  ⟨rfl, rfl, by decide⟩

/-- Claim C8 as amended: the connection handler depends on a single
endpoint URL configuration value, resolved once per connection — by the
`os.getenv("LLM_URL")` lookup at the start of the handler — and every
outbound request of that connection uses that same once-per-connection
resolved value (so all connections agree whenever the environment entry is
unchanged). -/
theorem posted_url_is_connection_resolved (env : String → Option String)
    (ep : String → Json → PostOutcome) (inbounds : List Inbound) (u : String)
    (h : u ∈ postedUrls (llm_proxy_endpoint env ep inbounds)) :
    env "LLM_URL" = some u :=
  connTrace_posted_url (env "LLM_URL") ep inbounds u h

/-- Witness for the amended C8: a connection under an environment binding
LLM_URL to "http://c.example"; its posted URL is exactly that binding. -/
theorem posted_url_is_connection_resolved_witness :
    (fun _ => some "http://c.example" : String → Option String) "LLM_URL" =
      some "http://c.example" :=
  posted_url_is_connection_resolved (fun _ => some "http://c.example") okEndpoint
    [helloInbound] "http://c.example"
    (by rw [show postedUrls (llm_proxy_endpoint (fun _ => some "http://c.example")
          okEndpoint [helloInbound]) = ["http://c.example"] from rfl]
        exact List.mem_singleton.mpr rfl)

/-- Claim C9: the per-message pipeline is deterministic given the
endpoint's reply — the translator and the whole iteration are pure
functions of the inbound frame and the endpoint's behaviour — so replaying
the same inbound frame on one connection against an idempotent (same-reply)
endpoint yields the identical event sequence twice, and in particular an
identical outbound frame pair both times. -/
theorem replay_yields_identical_frames (llmUrl : Option String)
    (ep : String → Json → PostOutcome) (i : Inbound)
    (h : (iterTrace llmUrl ep i).2 = none) :
    connTrace llmUrl ep [i, i] = (iterTrace llmUrl ep i).1 ++ (iterTrace llmUrl ep i).1 ∧
    sentFrames (connTrace llmUrl ep [i, i]) =
      sentFrames (iterTrace llmUrl ep i).1 ++ sentFrames (iterTrace llmUrl ep i).1 := by
  have h1 : connTrace llmUrl ep [i, i] =
      (iterTrace llmUrl ep i).1 ++ (iterTrace llmUrl ep i).1 := by
    rw [connTrace_cons_ok llmUrl ep i [i] h, connTrace_singleton]
  exact ⟨h1, by rw [h1]; simp [sentFrames]⟩

/-- Witness for C9: the scenario-A frame replayed against the scenario-A
endpoint. -/
theorem replay_yields_identical_frames_witness :
    connTrace (some "http://llm.example") okEndpoint [helloInbound, helloInbound] =
      (iterTrace (some "http://llm.example") okEndpoint helloInbound).1 ++
        (iterTrace (some "http://llm.example") okEndpoint helloInbound).1 ∧
    sentFrames (connTrace (some "http://llm.example") okEndpoint [helloInbound, helloInbound]) =
      sentFrames (iterTrace (some "http://llm.example") okEndpoint helloInbound).1 ++
        sentFrames (iterTrace (some "http://llm.example") okEndpoint helloInbound).1 :=
  replay_yields_identical_frames (some "http://llm.example") okEndpoint helloInbound rfl

/-- Claim C10: with LLM_URL unset in the environment, the handler still
accepts the connection and, for a well-formed first frame, receives it and
extracts the utterance; the missing configuration surfaces only when the
POST is attempted with the absent URL (the crash follows the extraction in
the trace, and no POST event occurs), which terminates the loop — there is
no startup-time or accept-time validation of the endpoint URL. -/
theorem unset_url_fails_only_at_post (ep : String → Json → PostOutcome)
    (payload u : Json) (rest : List Inbound)
    (hp : parse_hume_message payload = some u) :
    llm_proxy_endpoint (fun _ => none) ep (Inbound.parsed payload :: rest) =
      [Event.received (Inbound.parsed payload), Event.extracted u,
       Event.crashed IterError.noUrlError] := by
  have hit : iterTrace none ep (Inbound.parsed payload) =
      ([Event.received (Inbound.parsed payload), Event.extracted u,
        Event.crashed IterError.noUrlError], some IterError.noUrlError) := by
    simp [iterTrace, hp]
  rw [llm_proxy_endpoint]
  rw [connTrace, hit]

/-- Witness for C10: the scenario-A frame under an empty environment. -/
theorem unset_url_fails_only_at_post_witness :
    llm_proxy_endpoint (fun _ => none) okEndpoint (Inbound.parsed helloPayload :: []) =
      [Event.received (Inbound.parsed helloPayload), Event.extracted (Json.str "Hello"),
       Event.crashed IterError.noUrlError] :=
  unset_url_fails_only_at_post okEndpoint helloPayload (Json.str "Hello") [] rfl
